import Mathlib

/-!
Verification of the campus event-management backend (src/app.py).

The file embeds the data model (SQLite tables `events`, `students`,
`registrations` built in `init_db`), the mutating endpoints
(`create_event`, `create_student`, `register_student`, `mark_attendance`,
`give_feedback`) and the report queries (`report_attendance`,
`report_feedback`, `report_top_students`) as pure Lean functions over an
explicit database state, and proves the specification claims about them.

Modelling notes:
* JSON payload values are modelled by `JVal`; Python truthiness
  (`bool(v)`) by `truthy`, Python `int(v)` by `pyInt`.
* SQLite `TEXT` ordering (BINARY collation) is modelled by the
  code-point comparison `textLe`; `REAL` results of `ROUND(x, 2)` are
  modelled exactly in `ℚ` via `round2`.
* `ORDER BY` is modelled by `List.insertionSort` with the relation read
  off the query's sort keys; `LIMIT n` by `sqlLimit` (SQLite treats a
  negative limit as "no limit").
* The connection from `get_conn` never issues `PRAGMA foreign_keys=ON`,
  so the `FOREIGN KEY` clauses declared in `init_db` are not enforced by
  sqlite3; `register_student` therefore performs no existence check on
  `event_id`/`student_id` (only the `UNIQUE(event_id, student_id)`
  constraint is live).
-/

namespace Campus

/-- A JSON payload value as delivered by `request.get_json()`. -/
inductive JVal where
  | null
  | jbool (b : Bool)
  | num (n : Int)
  | str (s : String)
deriving Repr, DecidableEq

/-- Python truthiness `bool(v)` on a JSON value. -/
def truthy : JVal → Bool
  | .null => false
  | .jbool b => b
  | .num n => n != 0
  | .str s => s != ""

/-- Decimal digit-string value, `none` when empty or non-digit. -/
def digitsAux : List Char → Nat → Option Nat
  | [], acc => some acc
  | c :: cs, acc =>
    if c.isDigit then digitsAux cs (acc * 10 + (c.val.toNat - 48)) else none

/-- Value of a non-empty all-digit character list. -/
def digitsToNat (l : List Char) : Option Nat :=
  if l.isEmpty then none else digitsAux l 0

/-- Characters of a string with surrounding whitespace removed. -/
def trimChars (l : List Char) : List Char :=
  ((l.dropWhile Char.isWhitespace).reverse.dropWhile Char.isWhitespace).reverse

/-- Python `int(string)`: optional surrounding whitespace, optional
sign, decimal digits; `none` models the raised ValueError. -/
def pyIntOfStr (s : String) : Option Int :=
  match trimChars s.data with
  | '-' :: rest => (digitsToNat rest).map (fun n => -(n : Int))
  | '+' :: rest => (digitsToNat rest).map (fun n => (n : Int))
  | l => (digitsToNat l).map (fun n => (n : Int))

/-- Python `int(v)` on a JSON value: `none` models a raised exception.
Booleans coerce to 0/1, strings parse as integer literals. -/
def pyInt : JVal → Option Int
  | .null => none
  | .jbool b => some (if b then 1 else 0)
  | .num n => some n
  | .str s => pyIntOfStr s

/-- A row of the `events` table. -/
structure Event where
  id : Int
  title : String
  description : String
  date : String
  etype : String
  college_id : String
deriving Repr, DecidableEq

/-- A row of the `students` table (`email` is declared UNIQUE). -/
structure Student where
  id : Int
  name : String
  email : String
  college_id : String
deriving Repr, DecidableEq

/-- A row of the `registrations` table: `attendance INTEGER NOT NULL
DEFAULT 0`, `feedback INTEGER` nullable, `UNIQUE(event_id, student_id)`. -/
structure Registration where
  id : Int
  event_id : Int
  student_id : Int
  attendance : Int
  feedback : Option Int
  created_at : Nat
deriving Repr, DecidableEq

/-- The whole database, with the AUTOINCREMENT counters of the three
tables. -/
structure DBState where
  events : List Event
  students : List Student
  registrations : List Registration
  nextEventId : Int
  nextStudentId : Int
  nextRegId : Int
deriving Repr, DecidableEq

/-- The freshly initialised database produced by `init_db`. -/
def initState : DBState :=
  { events := [], students := [], registrations := [],
    nextEventId := 1, nextStudentId := 1, nextRegId := 1 }

/-- Error outcomes of the endpoints: explicit input checks
(`ValidationError`, HTTP 400) and `sqlite3.IntegrityError` surfaced as a
duplicate message (`DuplicateError`, HTTP 400). -/
inductive ApiError where
  | validationErr (msg : String)
  | duplicateErr (msg : String)
deriving Repr, DecidableEq

/-- Truthiness of an optional string field (`not s` in Python is true
for a missing key, JSON null, and the empty string). -/
def strPresent : Option String → Bool
  | none => false
  | some s => s != ""

/-- Truthiness of an optional integer id (`not i` is true for a missing
key, JSON null, and 0). -/
def idPresent : Option Int → Bool
  | none => false
  | some n => n != 0

/-- Embeds `create_event` (src/app.py 109-126): requires
title/description/date, applies defaults for type and college_id. -/
def create_event (st : DBState) (title description date etype college_id : Option String) :
    Except ApiError Event × DBState :=
  if !strPresent title || !strPresent description || !strPresent date then
    (.error (.validationErr "Missing fields: title/description/date"), st)
  else
    let row : Event :=
      { id := st.nextEventId, title := title.getD "", description := description.getD "",
        date := date.getD "", etype := etype.getD "General",
        college_id := college_id.getD "C-001" }
    (.ok row, { st with events := st.events ++ [row], nextEventId := st.nextEventId + 1 })

/-- Embeds `create_student` (src/app.py 141-160): requires all three
fields, rejects a duplicate email via the UNIQUE constraint. -/
def create_student (st : DBState) (name email college_id : Option String) :
    Except ApiError Student × DBState :=
  if !strPresent name || !strPresent email || !strPresent college_id then
    (.error (.validationErr "Missing fields: name/email/college_id"), st)
  else if st.students.any (fun s => s.email == email.getD "") then
    (.error (.duplicateErr "Email already exists"), st)
  else
    let row : Student :=
      { id := st.nextStudentId, name := name.getD "", email := email.getD "",
        college_id := college_id.getD "" }
    (.ok row, { st with students := st.students ++ [row], nextStudentId := st.nextStudentId + 1 })

/-- Embeds `register_student` (src/app.py 185-201): requires both ids,
rejects a duplicate (event_id, student_id) pair via the UNIQUE
constraint, and inserts with `attendance = 0`, `feedback` NULL.  The
declared FOREIGN KEYs are inert (no `PRAGMA foreign_keys=ON` on the
connection), so no existence check on either id happens. -/
def register_student (st : DBState) (event_id student_id : Option Int) (now : Nat) :
    Except ApiError Registration × DBState :=
  if !idPresent event_id || !idPresent student_id then
    (.error (.validationErr "Missing event_id/student_id"), st)
  else if st.registrations.any
      (fun r => r.event_id == event_id.getD 0 && r.student_id == student_id.getD 0) then
    (.error (.duplicateErr "Student is already registered for this event"), st)
  else
    let row : Registration :=
      { id := st.nextRegId, event_id := event_id.getD 0, student_id := student_id.getD 0,
        attendance := 0, feedback := none, created_at := now }
    (.ok row, { st with registrations := st.registrations ++ [row], nextRegId := st.nextRegId + 1 })

/-- Embeds `SELECT * FROM registrations WHERE id=?` with `one=True`:
first matching row or `None`. -/
def findReg (l : List Registration) (i : Int) : Option Registration :=
  (l.filter (fun r => r.id == i)).head?

/-- Embeds `mark_attendance` (src/app.py 203-212): coerces `present`
(defaulting to 1 when the key is absent) by truthiness to 0/1, requires
`registration_id`, then runs an UPDATE matching on id (a no-op when the
id does not exist) and re-reads the row. -/
def mark_attendance (st : DBState) (registration_id : Option Int) (present : Option JVal) :
    Except ApiError (Option Registration) × DBState :=
  let p : Int := if truthy (present.getD (.num 1)) then 1 else 0
  if !idPresent registration_id then
    (.error (.validationErr "Missing registration_id"), st)
  else
    let i := registration_id.getD 0
    let regs := st.registrations.map (fun r => if r.id == i then { r with attendance := p } else r)
    (.ok (findReg regs i), { st with registrations := regs })

/-- Embeds `give_feedback` (src/app.py 214-230): requires
`registration_id` and a non-null `feedback`, parses feedback with
`int(...)` and bound-checks it into [1,5], then runs the UPDATE (a no-op
when the id does not exist) and re-reads the row. -/
def give_feedback (st : DBState) (registration_id : Option Int) (feedback : Option JVal) :
    Except ApiError (Option Registration) × DBState :=
  if !idPresent registration_id || feedback.getD .null == .null then
    (.error (.validationErr "Missing registration_id/feedback"), st)
  else
    let pf := pyInt (feedback.getD .null)
    if pf.isNone || pf.getD 0 < 1 || pf.getD 0 > 5 then
      (.error (.validationErr "Feedback must be an integer 1-5"), st)
    else
      let f := pf.getD 0
      let i := registration_id.getD 0
      let regs := st.registrations.map
        (fun r => if r.id == i then { r with feedback := some f } else r)
      (.ok (findReg regs i), { st with registrations := regs })

/-- Code-point comparison of character lists: the model of SQLite BINARY
collation used by `ORDER BY ... ASC` on TEXT columns. -/
def charListLe : List Char → List Char → Bool
  | [], _ => true
  | _ :: _, [] => false
  | a :: as, b :: bs =>
    if a.val.toNat < b.val.toNat then true
    else if b.val.toNat < a.val.toNat then false
    else charListLe as bs

/-- Text ordering on strings (code-point wise). -/
def textLe (a b : String) : Bool := charListLe a.data b.data

/-- SQLite `ROUND(q, 2)`: round to 2 decimal places (exact, in `ℚ`). -/
def round2 (q : ℚ) : ℚ := ((q * 100 + 1 / 2).floor : ℚ) / 100

/-- Registrations of one event (`r.event_id = e.id`). -/
def eventRegs (st : DBState) (eid : Int) : List Registration :=
  st.registrations.filter (fun r => r.event_id == eid)

/-- Registrations of one student (`r.student_id = s.id`). -/
def studentRegs (st : DBState) (sid : Int) : List Registration :=
  st.registrations.filter (fun r => r.student_id == sid)

/-- A result row of `/api/reports/attendance`. -/
structure AttendanceRow where
  id : Int
  title : String
  total : Nat
  attended : Int
  attendance_pct : ℚ
deriving Repr, DecidableEq

/-- The aggregates of `report_attendance` for one event: `COUNT(r.id)`,
`COALESCE(SUM(r.attendance),0)`, and the guarded percentage. -/
def attendanceRowOf (st : DBState) (e : Event) : AttendanceRow :=
  let regs := eventRegs st e.id
  { id := e.id, title := e.title, total := regs.length,
    attended := (regs.map (fun r => r.attendance)).sum,
    attendance_pct :=
      if regs.length = 0 then 0
      else round2 ((((regs.map (fun r => r.attendance)).sum : Int) : ℚ) * 100 / (regs.length : ℚ)) }

/-- The sort keys `ORDER BY attendance_pct DESC, e.title ASC`. -/
def attOrd (a b : AttendanceRow) : Prop :=
  b.attendance_pct < a.attendance_pct ∨
    (a.attendance_pct = b.attendance_pct ∧ textLe a.title b.title = true)

instance : DecidableRel attOrd := fun a b => by unfold attOrd; infer_instance

/-- Embeds `report_attendance` (src/app.py 246-259). -/
def report_attendance (st : DBState) : List AttendanceRow :=
  List.insertionSort attOrd (st.events.map (attendanceRowOf st))

/-- A result row of `/api/reports/feedback`. -/
structure FeedbackRow where
  id : Int
  title : String
  avg_feedback : ℚ
deriving Repr, DecidableEq

/-- The non-null feedback values of one event (the LEFT JOIN condition
`r.feedback IS NOT NULL` drops null feedback before aggregation). -/
def fbVals (st : DBState) (eid : Int) : List Int :=
  (eventRegs st eid).filterMap (fun r => r.feedback)

/-- The aggregate of `report_feedback` for one event:
`ROUND(AVG(r.feedback), 2)`. -/
def feedbackRowOf (st : DBState) (e : Event) : FeedbackRow :=
  { id := e.id, title := e.title,
    avg_feedback := round2 (((fbVals st e.id).sum : ℚ) / ((fbVals st e.id).length : ℚ)) }

/-- The sort keys `ORDER BY avg_feedback DESC, e.title ASC`. -/
def fbOrd (a b : FeedbackRow) : Prop :=
  b.avg_feedback < a.avg_feedback ∨
    (a.avg_feedback = b.avg_feedback ∧ textLe a.title b.title = true)

instance : DecidableRel fbOrd := fun a b => by unfold fbOrd; infer_instance

/-- Embeds `report_feedback` (src/app.py 261-272): `HAVING
COUNT(r.feedback) > 0` keeps only events with at least one non-null
feedback. -/
def report_feedback (st : DBState) : List FeedbackRow :=
  List.insertionSort fbOrd
    ((st.events.filter (fun e => !(fbVals st e.id).isEmpty)).map (feedbackRowOf st))

/-- A result row of `/api/reports/top-students`.  `events_attended` is
`SUM(r.attendance)`, which is SQL NULL (`none`) when the student has no
registrations. -/
structure TopStudentRow where
  id : Int
  name : String
  email : String
  college_id : String
  events_attended : Option Int
  registrations : Nat
deriving Repr, DecidableEq

/-- The aggregates of `report_top_students` for one student. -/
def topStudentRowOf (st : DBState) (s : Student) : TopStudentRow :=
  let regs := studentRegs st s.id
  { id := s.id, name := s.name, email := s.email, college_id := s.college_id,
    events_attended := if regs.isEmpty then none
      else some ((regs.map (fun r => r.attendance)).sum),
    registrations := regs.length }

/-- SQL comparison of a nullable integer: NULL sorts below every
integer. -/
def nullLt : Option Int → Option Int → Bool
  | none, some _ => true
  | none, none => false
  | some _, none => false
  | some a, some b => decide (a < b)

/-- The sort keys `ORDER BY events_attended DESC, registrations DESC,
s.name ASC`. -/
def topOrd (a b : TopStudentRow) : Prop :=
  nullLt b.events_attended a.events_attended = true ∨
    (a.events_attended = b.events_attended ∧
      (b.registrations < a.registrations ∨
        (a.registrations = b.registrations ∧ textLe a.name b.name = true)))

instance : DecidableRel topOrd := fun a b => by unfold topOrd; infer_instance

/-- SQLite `LIMIT n`: a negative limit means no truncation. -/
def sqlLimit {α : Type} (limit : Int) (l : List α) : List α :=
  if limit < 0 then l else l.take limit.toNat

/-- Embeds `report_top_students` (src/app.py 275-288). -/
def report_top_students (st : DBState) (limit : Int) : List TopStudentRow :=
  sqlLimit limit (List.insertionSort topOrd (st.students.map (topStudentRowOf st)))

/-- The states reachable from the initialised database through the
mutating endpoints (with arbitrary request payloads). -/
inductive Reach : DBState → Prop where
  | init : Reach initState
  | createEvent {st} (t d dt ty c) : Reach st → Reach (create_event st t d dt ty c).2
  | createStudent {st} (n e c) : Reach st → Reach (create_student st n e c).2
  | register {st} (e s now) : Reach st → Reach (register_student st e s now).2
  | mark {st} (i p) : Reach st → Reach (mark_attendance st i p).2
  | feedback {st} (i f) : Reach st → Reach (give_feedback st i f).2

/-! Helper lemmas about the text ordering. -/

theorem charListLe_cons {a b : Char} {as bs : List Char} :
    charListLe (a :: as) (b :: bs) = true ↔
      (a.val.toNat < b.val.toNat ∨ (a.val.toNat = b.val.toNat ∧ charListLe as bs = true)) := by
  simp only [charListLe]
  split_ifs with h1 h2
  · exact iff_of_true rfl (Or.inl h1)
  · constructor
    · intro h; simp at h
    · rintro (h | ⟨h, _⟩) <;> omega
  · have he : a.val.toNat = b.val.toNat := by omega
    constructor
    · intro h; exact Or.inr ⟨he, h⟩
    · rintro (h | ⟨_, h⟩)
      · omega
      · exact h

theorem charListLe_total : ∀ a b, charListLe a b = true ∨ charListLe b a = true
  | [], _ => Or.inl rfl
  | _ :: _, [] => Or.inr rfl
  | a :: as, b :: bs => by
    rcases Nat.lt_trichotomy a.val.toNat b.val.toNat with h | h | h
    · exact Or.inl (charListLe_cons.mpr (Or.inl h))
    · rcases charListLe_total as bs with h2 | h2
      · exact Or.inl (charListLe_cons.mpr (Or.inr ⟨h, h2⟩))
      · exact Or.inr (charListLe_cons.mpr (Or.inr ⟨h.symm, h2⟩))
    · exact Or.inr (charListLe_cons.mpr (Or.inl h))

theorem charListLe_trans : ∀ a b c, charListLe a b = true → charListLe b c = true →
    charListLe a c = true
  | [], _, _, _, _ => rfl
  | _ :: _, [], _, hab, _ => by simp [charListLe] at hab
  | _ :: _, _ :: _, [], _, hbc => by simp [charListLe] at hbc
  | a :: as, b :: bs, c :: cs, hab, hbc => by
    rcases charListLe_cons.mp hab with h1 | ⟨h1, h1r⟩ <;>
      rcases charListLe_cons.mp hbc with h2 | ⟨h2, h2r⟩
    · exact charListLe_cons.mpr (Or.inl (Nat.lt_trans h1 h2))
    · exact charListLe_cons.mpr (Or.inl (h2 ▸ h1))
    · exact charListLe_cons.mpr (Or.inl (h1 ▸ h2))
    · exact charListLe_cons.mpr (Or.inr ⟨h1.trans h2, charListLe_trans as bs cs h1r h2r⟩)

theorem textLe_total (a b : String) : textLe a b = true ∨ textLe b a = true :=
  charListLe_total a.data b.data

theorem textLe_trans {a b c : String} (h1 : textLe a b = true) (h2 : textLe b c = true) :
    textLe a c = true :=
  charListLe_trans a.data b.data c.data h1 h2

/-! Totality and transitivity of the three ORDER BY relations, as needed
for sortedness of `insertionSort`. -/

instance : IsTotal AttendanceRow attOrd := by
  constructor
  intro a b
  rcases lt_trichotomy a.attendance_pct b.attendance_pct with h | h | h
  · exact Or.inr (Or.inl h)
  · rcases textLe_total a.title b.title with h2 | h2
    · exact Or.inl (Or.inr ⟨h, h2⟩)
    · exact Or.inr (Or.inr ⟨h.symm, h2⟩)
  · exact Or.inl (Or.inl h)

instance : IsTrans AttendanceRow attOrd := by
  constructor
  intro a b c hab hbc
  rcases hab with h1 | ⟨h1, h1t⟩ <;> rcases hbc with h2 | ⟨h2, h2t⟩
  · exact Or.inl (h2.trans h1)
  · exact Or.inl (h2 ▸ h1)
  · exact Or.inl (h1 ▸ h2)
  · exact Or.inr ⟨h1.trans h2, textLe_trans h1t h2t⟩

instance : IsTotal FeedbackRow fbOrd := by
  constructor
  intro a b
  rcases lt_trichotomy a.avg_feedback b.avg_feedback with h | h | h
  · exact Or.inr (Or.inl h)
  · rcases textLe_total a.title b.title with h2 | h2
    · exact Or.inl (Or.inr ⟨h, h2⟩)
    · exact Or.inr (Or.inr ⟨h.symm, h2⟩)
  · exact Or.inl (Or.inl h)

instance : IsTrans FeedbackRow fbOrd := by
  constructor
  intro a b c hab hbc
  rcases hab with h1 | ⟨h1, h1t⟩ <;> rcases hbc with h2 | ⟨h2, h2t⟩
  · exact Or.inl (h2.trans h1)
  · exact Or.inl (h2 ▸ h1)
  · exact Or.inl (h1 ▸ h2)
  · exact Or.inr ⟨h1.trans h2, textLe_trans h1t h2t⟩

theorem nullLt_trans {a b c : Option Int} (h1 : nullLt a b = true) (h2 : nullLt b c = true) :
    nullLt a c = true := by
  cases a <;> cases b <;> cases c <;> simp_all [nullLt] <;> omega

theorem nullLt_total (a b : Option Int) :
    nullLt a b = true ∨ a = b ∨ nullLt b a = true := by
  cases a <;> cases b <;> simp_all [nullLt] <;> omega

instance : IsTotal TopStudentRow topOrd := by
  constructor
  intro a b
  rcases nullLt_total a.events_attended b.events_attended with h | h | h
  · exact Or.inr (Or.inl h)
  · rcases Nat.lt_trichotomy a.registrations b.registrations with h2 | h2 | h2
    · exact Or.inr (Or.inr ⟨h.symm, Or.inl h2⟩)
    · rcases textLe_total a.name b.name with h3 | h3
      · exact Or.inl (Or.inr ⟨h, Or.inr ⟨h2, h3⟩⟩)
      · exact Or.inr (Or.inr ⟨h.symm, Or.inr ⟨h2.symm, h3⟩⟩)
    · exact Or.inl (Or.inr ⟨h, Or.inl h2⟩)
  · exact Or.inl (Or.inl h)

instance : IsTrans TopStudentRow topOrd := by
  constructor
  intro a b c hab hbc
  rcases hab with h1 | ⟨h1, h1r⟩ <;> rcases hbc with h2 | ⟨h2, h2r⟩
  · exact Or.inl (nullLt_trans h2 h1)
  · exact Or.inl (h2 ▸ h1)
  · exact Or.inl (h1 ▸ h2)
  · refine Or.inr ⟨h1.trans h2, ?_⟩
    rcases h1r with h1r | ⟨h1e, h1t⟩ <;> rcases h2r with h2r | ⟨h2e, h2t⟩
    · exact Or.inl (Nat.lt_trans h2r h1r)
    · exact Or.inl (h2e ▸ h1r)
    · exact Or.inl (h1e ▸ h2r)
    · exact Or.inr ⟨h1e.trans h2e, textLe_trans h1t h2t⟩

/-! Helper lemmas about registration lists. -/

theorem sum_attendance_eq_count (l : List Registration)
    (h : ∀ r ∈ l, r.attendance = 0 ∨ r.attendance = 1) :
    (l.map (fun r => r.attendance)).sum =
      ((l.filter (fun r => r.attendance == 1)).length : Int) := by
  induction l with
  | nil => simp
  | cons a t ih =>
    have ha := h a (List.mem_cons_self a t)
    have ht := ih (fun r hr => h r (List.mem_cons_of_mem a hr))
    simp only [List.map_cons, List.sum_cons]
    rcases ha with h0 | h1
    · rw [List.filter_cons_of_neg (by simp [h0]), h0]
      simpa using ht
    · rw [List.filter_cons_of_pos (by simp [h1]), h1, List.length_cons, ht]
      push_cast
      omega

theorem filter_key_eq_single {α β : Type} [DecidableEq β] (key : α → β) :
    ∀ {l : List α} {x : α} {k : β},
    (l.map key).Nodup → x ∈ l → key x = k →
    l.filter (fun y => decide (key y = k)) = [x] := by
  intro l
  induction l with
  | nil => intro x k _ hx; cases hx
  | cons a t ih =>
    intro x k hnd hx hk
    simp only [List.map_cons, List.nodup_cons, List.mem_map] at hnd
    rcases List.mem_cons.mp hx with rfl | hxt
    · rw [List.filter_cons, if_pos (by simp [hk])]
      have hnil : t.filter (fun y => decide (key y = k)) = [] := by
        rw [List.filter_eq_nil_iff]
        intro y hy hyk
        exact hnd.1 ⟨y, hy, by rw [of_decide_eq_true hyk, hk]⟩
      rw [hnil]
    · have hne : decide (key a = k) = false := by
        simp only [decide_eq_false_iff_not]
        intro he
        exact hnd.1 ⟨x, hxt, by rw [hk, ← he]⟩
      rw [List.filter_cons, if_neg (by simp [hne])]
      exact ih hnd.2 hxt hk

theorem filter_id_eq_single {l : List Registration} {r : Registration} {i : Int}
    (hnd : (l.map (fun x => x.id)).Nodup) (hr : r ∈ l) (hi : r.id = i) :
    l.filter (fun x => x.id == i) = [r] := by
  rw [List.filter_congr
    (fun x _ => show (x.id == i) = decide (x.id = i) by rw [Bool.eq_iff_iff]; simp)]
  exact filter_key_eq_single (fun x => x.id) hnd hr hi

theorem findReg_map_pres (u : Registration → Registration) (hu : ∀ x, (u x).id = x.id)
    (l : List Registration) (i : Int) :
    findReg (l.map u) i = (findReg l i).map u := by
  unfold findReg
  rw [List.filter_map]
  rw [show ((fun r : Registration => r.id == i) ∘ u) = (fun r : Registration => r.id == i) by
    funext x; simp [hu x]]
  exact List.head?_map u _

theorem map_update_of_absent {l : List Registration} {i : Int}
    (h : ∀ r ∈ l, r.id ≠ i) (f : Registration → Registration) :
    l.map (fun r => if r.id == i then f r else r) = l := by
  have := List.map_congr_left (l := l)
    (f := fun r => if r.id == i then f r else r) (g := id)
    (fun a ha => by simp [h a ha])
  rw [this, List.map_id]

theorem findReg_eq_none {l : List Registration} {i : Int} (h : ∀ r ∈ l, r.id ≠ i) :
    findReg l i = none := by
  unfold findReg
  rw [List.filter_eq_nil_iff.mpr (fun a ha hai => h a ha (by simpa using hai))]
  rfl

theorem findReg_eq_of_nodup {l : List Registration} {r : Registration} {i : Int}
    (hnd : (l.map (fun x => x.id)).Nodup) (hr : r ∈ l) (hi : r.id = i) :
    findReg l i = some r := by
  unfold findReg
  rw [filter_id_eq_single hnd hr hi]
  rfl

/-- Claim C1 (code bug): the spec requires that a `register` call whose
`event_id` or `student_id` does not resolve to an existing Event or
Student row is rejected with no Registration inserted, and `init_db`
declares the matching FOREIGN KEYs — but the sqlite3 connection never
enables `PRAGMA foreign_keys`, so the constraint is inert.  Evaluating
the code on the failing input: registering (event_id=1, student_id=1)
against the freshly initialised store (no events, no students) succeeds
and inserts a dangling Registration row. -/
theorem C1_foreign_keys_not_enforced :
    initState.events = [] ∧ initState.students = [] ∧
    (register_student initState (some 1) (some 1) 0).1 =
      .ok { id := 1, event_id := 1, student_id := 1, attendance := 0,
            feedback := none, created_at := 0 } ∧
    (register_student initState (some 1) (some 1) 0).2.registrations =
      [{ id := 1, event_id := 1, student_id := 1, attendance := 0,
         feedback := none, created_at := 0 }] := by
  refine ⟨rfl, rfl, rfl, rfl⟩

/-- Claim C7: updating attendance or feedback for a registration id that
does not exist in the store is a silent no-op — the call returns
successfully, zero rows change, the store is left unchanged, and the
subsequent read of that id yields `none`. -/
theorem C7_missing_id_noop (st : DBState) (rid : Int) (hrid : rid ≠ 0)
    (habs : ∀ r ∈ st.registrations, r.id ≠ rid)
    (present : Option JVal) (f : Int) (hf1 : 1 ≤ f) (hf5 : f ≤ 5) :
    mark_attendance st (some rid) present = (.ok none, st) ∧
    give_feedback st (some rid) (some (.num f)) = (.ok none, st) := by
  have hidp : (!idPresent (some rid)) = false := by simp [idPresent, hrid]
  constructor
  · unfold mark_attendance
    rw [hidp]
    simp only [Bool.false_eq_true, if_false]
    rw [show (some rid).getD 0 = rid from rfl]
    rw [map_update_of_absent habs]
    rw [findReg_eq_none habs]
  · unfold give_feedback
    rw [show (!idPresent (some rid) || ((some (JVal.num f)).getD .null == JVal.null)) = false by
      rw [hidp]; rfl]
    simp only [Bool.false_eq_true, if_false]
    rw [show pyInt ((some (JVal.num f)).getD .null) = some f from rfl]
    rw [show ((some f).isNone || (some f).getD 0 < 1 || (some f).getD 0 > 5) = false by
      simp only [Option.isNone_some, Option.getD_some, Bool.false_or,
        Bool.or_eq_false_iff, decide_eq_false_iff_not, not_lt]
      omega]
    simp only [Bool.false_eq_true, if_false]
    rw [show (some rid).getD 0 = rid from rfl]
    rw [map_update_of_absent habs]
    rw [findReg_eq_none habs]

/-- A sample registration row (id 1, event 1, student 1, attendance 0,
feedback NULL) for witnesses. -/
def regW : Registration :=
  { id := 1, event_id := 1, student_id := 1, attendance := 0, feedback := none, created_at := 0 }

/-- A sample event row for witnesses. -/
def evW : Event :=
  { id := 1, title := "Hack Day", description := "d", date := "2024-03-01",
    etype := "General", college_id := "C-001" }

/-- A sample student row for witnesses. -/
def studW : Student :=
  { id := 1, name := "Alice", email := "alice@x", college_id := "C-001" }

/-- A sample store holding one event, one student and one registration,
for witnesses. -/
def stW : DBState :=
  { events := [evW], students := [studW], registrations := [regW],
    nextEventId := 2, nextStudentId := 2, nextRegId := 2 }

/-- Witness for C7 at a concrete store and input. -/
theorem C7_missing_id_noop_witness :
    mark_attendance stW (some 7) none = (.ok none, stW) ∧
    give_feedback stW (some 7) (some (.num 3)) = (.ok none, stW) :=
  C7_missing_id_noop stW 7 (by decide) (by decide) none 3 (by decide) (by decide)

/-- Claim C3: when a student with email E already exists, a second
`create_student` call with email E (and non-empty name and college_id)
fails with a DuplicateError, leaves the store unchanged, and exactly one
student row with email E exists afterward. -/
theorem C3_duplicate_email (st : DBState) (name college E : String)
    (hn : name ≠ "") (hc : college ≠ "") (hE : E ≠ "")
    (hnd : (st.students.map (fun s => s.email)).Nodup)
    (s0 : Student) (hs0 : s0 ∈ st.students) (hmail : s0.email = E) :
    (∃ msg, create_student st (some name) (some E) (some college) =
      (.error (.duplicateErr msg), st)) ∧
    (st.students.filter (fun s => s.email == E)).length = 1 := by
  constructor
  · refine ⟨"Email already exists", ?_⟩
    unfold create_student
    rw [show (!strPresent (some name) || !strPresent (some E) || !strPresent (some college))
        = false by simp [strPresent, hn, hc, hE]]
    simp only [Bool.false_eq_true, if_false]
    rw [if_pos]
    exact List.any_eq_true.mpr ⟨s0, hs0, by simp [hmail]⟩
  · rw [List.filter_congr
      (fun x _ => show (x.email == E) = decide (x.email = E) by rw [Bool.eq_iff_iff]; simp)]
    rw [filter_key_eq_single (fun s => s.email) hnd hs0 hmail]
    rfl

/-- Witness for C3: a second "Alice" with the already-present email. -/
theorem C3_duplicate_email_witness :
    (∃ msg, create_student stW (some "Bob") (some "alice@x") (some "C-002") =
      (.error (.duplicateErr msg), stW)) ∧
    (stW.students.filter (fun s => s.email == "alice@x")).length = 1 :=
  C3_duplicate_email stW "Bob" "C-002" "alice@x" (by decide) (by decide) (by decide)
    (by decide) studW (by decide) (by decide)

/-- Claim C4: when a registration for the pair (event_id, student_id)
already exists, a second `register` call for the same pair fails with a
DuplicateError and inserts nothing, so exactly one registration row for
that pair exists afterward. -/
theorem C4_duplicate_pair (st : DBState) (e s : Int) (he : e ≠ 0) (hs : s ≠ 0)
    (hnd : (st.registrations.map (fun r => (r.event_id, r.student_id))).Nodup)
    (r0 : Registration) (hr0 : r0 ∈ st.registrations)
    (hre : r0.event_id = e) (hrs : r0.student_id = s) (now : Nat) :
    (∃ msg, register_student st (some e) (some s) now = (.error (.duplicateErr msg), st)) ∧
    (st.registrations.filter (fun r => r.event_id == e && r.student_id == s)).length = 1 := by
  constructor
  · refine ⟨"Student is already registered for this event", ?_⟩
    unfold register_student
    rw [show (!idPresent (some e) || !idPresent (some s)) = false by simp [idPresent, he, hs]]
    simp only [Bool.false_eq_true, if_false]
    rw [if_pos]
    exact List.any_eq_true.mpr ⟨r0, hr0, by simp [hre, hrs]⟩
  · have hq : ∀ x ∈ st.registrations,
        (x.event_id == e && x.student_id == s) =
          decide ((x.event_id, x.student_id) = (e, s)) := by
      intro x _
      rw [Bool.eq_iff_iff]
      simp [Prod.ext_iff]
    rw [List.filter_congr hq]
    rw [filter_key_eq_single (fun r => (r.event_id, r.student_id)) hnd hr0
      (show (r0.event_id, r0.student_id) = (e, s) by rw [hre, hrs])]
    rfl

/-- Witness for C4: re-registering student 1 to event 1 in the sample
store. -/
theorem C4_duplicate_pair_witness :
    (∃ msg, register_student stW (some 1) (some 1) 5 = (.error (.duplicateErr msg), stW)) ∧
    (stW.registrations.filter (fun r => r.event_id == 1 && r.student_id == 1)).length = 1 :=
  C4_duplicate_pair stW 1 1 (by decide) (by decide) (by decide) regW (by decide)
    (by decide) (by decide) 5

/-- Equation for a well-formed `mark_attendance` call: the UPDATE maps
over the table and the updated row (if any) is re-read. -/
theorem mark_attendance_eq (st : DBState) (i : Int) (hi : i ≠ 0) (present : Option JVal) :
    mark_attendance st (some i) present =
      (.ok (findReg (st.registrations.map (fun r => if r.id == i then
          { r with attendance := if truthy (present.getD (.num 1)) then 1 else 0 } else r)) i),
        { st with registrations := st.registrations.map (fun r => if r.id == i then
          { r with attendance := if truthy (present.getD (.num 1)) then 1 else 0 } else r) }) := by
  have hc : (!idPresent (some i)) = false := by simp [idPresent, hi]
  simp only [mark_attendance, hc, Bool.false_eq_true, if_false, Option.getD_some]

/-- Equation for a well-formed `give_feedback` call. -/
theorem give_feedback_eq (st : DBState) (i : Int) (hi : i ≠ 0) (v : JVal) (f : Int)
    (hparse : pyInt v = some f) (h1 : 1 ≤ f) (h5 : f ≤ 5) :
    give_feedback st (some i) (some v) =
      (.ok (findReg (st.registrations.map
          (fun x => if x.id == i then { x with feedback := some f } else x)) i),
        { st with registrations := st.registrations.map (fun x =>
            if x.id == i then { x with feedback := some f } else x) }) := by
  have hvnull : (v == JVal.null) = false := by
    cases v <;> simp_all [pyInt]
  have hc1 : (!idPresent (some i) || v == JVal.null) = false := by
    rw [Bool.or_eq_false_iff]
    exact ⟨by simp [idPresent, hi], hvnull⟩
  have hc2 : ((some f : Option Int).isNone || decide (f < 1) || decide (f > 5)) = false := by
    simp only [Option.isNone_some, Bool.false_or, Bool.or_eq_false_iff,
      decide_eq_false_iff_not, not_lt]
    omega
  simp only [give_feedback, Option.getD_some, hparse, hc1, hc2, Bool.false_eq_true, if_false]

/-- An id-matching row update preserves ids. -/
theorem update_preserves_id (i : Int) (g : Registration → Registration)
    (hg : ∀ x, (g x).id = x.id) (x : Registration) :
    ((fun r => if r.id == i then g r else r) x).id = x.id := by
  by_cases hx : (x.id == i) = true <;> simp [hx, hg]

/-- Claim C9: on an existing registration, `markAttendance(id, p)` and
`recordFeedback(id, f)` commute — both orders produce the same store,
and in both orders the final registration row carries `attendance`
encoding `p` and `feedback = f`: neither update overwrites the other's
field. -/
theorem C9_updates_commute (st : DBState) (i : Int) (hi : i ≠ 0)
    (hnd : (st.registrations.map (fun x => x.id)).Nodup)
    (r : Registration) (hr : r ∈ st.registrations) (hrid : r.id = i)
    (p : Bool) (f : Int) (h1 : 1 ≤ f) (h5 : f ≤ 5) :
    (give_feedback (mark_attendance st (some i) (some (.jbool p))).2 (some i)
        (some (.num f))).2 =
      (mark_attendance (give_feedback st (some i) (some (.num f))).2 (some i)
        (some (.jbool p))).2 ∧
    (give_feedback (mark_attendance st (some i) (some (.jbool p))).2 (some i)
        (some (.num f))).1 =
      .ok (some { r with attendance := if p then 1 else 0, feedback := some f }) ∧
    (mark_attendance (give_feedback st (some i) (some (.num f))).2 (some i)
        (some (.jbool p))).1 =
      .ok (some { r with attendance := if p then 1 else 0, feedback := some f }) := by
  have htr : truthy ((some (JVal.jbool p)).getD (JVal.num 1)) = p := rfl
  have hcomp1 : ∀ x : Registration,
      (fun y => if y.id == i then { y with feedback := some f } else y)
        ((fun y => if y.id == i then { y with attendance := if p then 1 else 0 } else y) x) =
      (fun y => if y.id == i
        then { y with attendance := if p then 1 else 0, feedback := some f } else y) x := by
    intro x
    by_cases hx : (x.id == i) = true <;> simp [hx]
  have hcomp2 : ∀ x : Registration,
      (fun y => if y.id == i then { y with attendance := if p then 1 else 0 } else y)
        ((fun y => if y.id == i then { y with feedback := some f } else y) x) =
      (fun y => if y.id == i
        then { y with attendance := if p then 1 else 0, feedback := some f } else y) x := by
    intro x
    by_cases hx : (x.id == i) = true <;> simp [hx]
  have hfind : findReg (st.registrations.map (fun y => if y.id == i
      then { y with attendance := if p then 1 else 0, feedback := some f } else y)) i =
      some { r with attendance := if p then 1 else 0, feedback := some f } := by
    rw [findReg_map_pres (fun y => if y.id == i
        then { y with attendance := if p then 1 else 0, feedback := some f } else y)
      (update_preserves_id i (fun y =>
        { y with attendance := if p then 1 else 0, feedback := some f }) (fun x => rfl))
      st.registrations i]
    rw [findReg_eq_of_nodup hnd hr hrid]
    simp only [Option.map_some']
    rw [if_pos (by simp [hrid])]
  have hmap1 : (st.registrations.map (fun y => if y.id == i
        then { y with attendance := if p then 1 else 0 } else y)).map
      (fun y => if y.id == i then { y with feedback := some f } else y) =
      st.registrations.map (fun y => if y.id == i
        then { y with attendance := if p then 1 else 0, feedback := some f } else y) := by
    rw [List.map_map]
    exact List.map_congr_left (fun a _ => hcomp1 a)
  have hmap2 : (st.registrations.map (fun y => if y.id == i
        then { y with feedback := some f } else y)).map
      (fun y => if y.id == i then { y with attendance := if p then 1 else 0 } else y) =
      st.registrations.map (fun y => if y.id == i
        then { y with attendance := if p then 1 else 0, feedback := some f } else y) := by
    rw [List.map_map]
    exact List.map_congr_left (fun a _ => hcomp2 a)
  have hA : give_feedback (mark_attendance st (some i) (some (.jbool p))).2 (some i)
      (some (.num f)) =
      (.ok (some { r with attendance := if p then 1 else 0, feedback := some f }),
        { st with registrations := st.registrations.map (fun y => if y.id == i
          then { y with attendance := if p then 1 else 0, feedback := some f } else y) }) := by
    rw [mark_attendance_eq st i hi (some (.jbool p))]
    dsimp only
    rw [give_feedback_eq _ i hi (.num f) f rfl h1 h5]
    dsimp only
    rw [htr, hmap1, hfind]
  have hB : mark_attendance (give_feedback st (some i) (some (.num f))).2 (some i)
      (some (.jbool p)) =
      (.ok (some { r with attendance := if p then 1 else 0, feedback := some f }),
        { st with registrations := st.registrations.map (fun y => if y.id == i
          then { y with attendance := if p then 1 else 0, feedback := some f } else y) }) := by
    rw [give_feedback_eq st i hi (.num f) f rfl h1 h5]
    dsimp only
    rw [mark_attendance_eq _ i hi (some (.jbool p))]
    dsimp only
    rw [htr, hmap2, hfind]
  refine ⟨?_, ?_, ?_⟩
  · rw [hA, hB]
  · rw [hA]
  · rw [hB]

/-- Witness for C9 at the sample store. -/
theorem C9_updates_commute_witness :
    (give_feedback (mark_attendance stW (some 1) (some (.jbool true))).2 (some 1)
        (some (.num 4))).2 =
      (mark_attendance (give_feedback stW (some 1) (some (.num 4))).2 (some 1)
        (some (.jbool true))).2 ∧
    (give_feedback (mark_attendance stW (some 1) (some (.jbool true))).2 (some 1)
        (some (.num 4))).1 =
      .ok (some { regW with attendance := 1, feedback := some 4 }) ∧
    (mark_attendance (give_feedback stW (some 1) (some (.num 4))).2 (some 1)
        (some (.jbool true))).1 =
      .ok (some { regW with attendance := 1, feedback := some 4 }) :=
  C9_updates_commute stW 1 (by decide) (by decide) regW (by decide) (by decide)
    true 4 (by decide) (by decide)

/-- Claim C8: `recordFeedback` fails with a ValidationError — writing
nothing — exactly when the registration id is missing, the feedback is
absent, or the feedback does not parse as an integer in [1,5]; and for
an existing registration id with feedback parsing into [1,5] it sets
that registration's feedback and returns the updated row. -/
theorem C8_feedback_validation (st : DBState) (rid : Option Int) (fb : Option JVal) :
    ((∃ msg, (give_feedback st rid fb).1 = .error (.validationErr msg)) ↔
      (idPresent rid = false ∨ fb.getD .null = .null ∨
        ¬ ∃ f, pyInt (fb.getD .null) = some f ∧ 1 ≤ f ∧ f ≤ 5)) ∧
    ((∃ msg, (give_feedback st rid fb).1 = .error (.validationErr msg)) →
      (give_feedback st rid fb).2 = st) ∧
    (∀ i v f r, rid = some i → fb = some v → i ≠ 0 →
      pyInt v = some f → 1 ≤ f → f ≤ 5 →
      (st.registrations.map (fun x => x.id)).Nodup → r ∈ st.registrations → r.id = i →
      (give_feedback st rid fb).1 = .ok (some { r with feedback := some f }) ∧
      (give_feedback st rid fb).2.registrations =
        st.registrations.map (fun x => if x.id == i then { x with feedback := some f } else x)) := by
  refine ⟨⟨?_, ?_⟩, ?_, ?_⟩
  · rintro ⟨msg, hmsg⟩
    by_cases h1 : (!idPresent rid || fb.getD .null == JVal.null) = true
    · simp only [Bool.or_eq_true, Bool.not_eq_eq_eq_not, Bool.not_true, beq_iff_eq] at h1
      rcases h1 with ha | hb
      · exact Or.inl ha
      · exact Or.inr (Or.inl hb)
    · have h1f : (!idPresent rid || fb.getD .null == JVal.null) = false := by
        simpa using h1
      by_cases h2 : ((pyInt (fb.getD .null)).isNone
          || (pyInt (fb.getD .null)).getD 0 < 1 || (pyInt (fb.getD .null)).getD 0 > 5) = true
      · refine Or.inr (Or.inr ?_)
        rintro ⟨f, hf, hf1, hf5⟩
        rw [hf] at h2
        simp only [Option.isNone_some, Option.getD_some, Bool.false_or, Bool.or_eq_true,
          decide_eq_true_eq] at h2
        omega
      · have h2f : ((pyInt (fb.getD .null)).isNone
            || (pyInt (fb.getD .null)).getD 0 < 1
            || (pyInt (fb.getD .null)).getD 0 > 5) = false := by
          rw [Bool.eq_false_iff]
          exact h2
        exfalso
        simp only [give_feedback, h1f, h2f, Bool.false_eq_true, if_false] at hmsg
        simp at hmsg
  · intro h
    by_cases h1 : (!idPresent rid || fb.getD .null == JVal.null) = true
    · exact ⟨"Missing registration_id/feedback", by simp [give_feedback, h1]⟩
    · have h1f : (!idPresent rid || fb.getD .null == JVal.null) = false := by
        simpa using h1
      have h1p : (!idPresent rid) = false ∧ (fb.getD .null == JVal.null) = false := by
        rw [← Bool.or_eq_false_iff]
        exact h1f
      have hidp : idPresent rid = true := by
        have := h1p.1
        simpa using this
      have hnn : ¬ fb.getD .null = JVal.null := by
        have := h1p.2
        simpa using this
      rcases h with hmiss | hnull | hpar
      · rw [hidp] at hmiss
        cases hmiss
      · exact absurd hnull hnn
      · have h2 : ((pyInt (fb.getD .null)).isNone
            || (pyInt (fb.getD .null)).getD 0 < 1
            || (pyInt (fb.getD .null)).getD 0 > 5) = true := by
          rcases hpf : pyInt (fb.getD .null) with _ | f
          · simp
          · have hout : f < 1 ∨ 5 < f := by
              by_contra hc
              push_neg at hc
              exact hpar ⟨f, hpf, hc.1, hc.2⟩
            simp only [Option.isNone_some, Option.getD_some, Bool.false_or, Bool.or_eq_true,
              decide_eq_true_eq]
            omega
        exact ⟨"Feedback must be an integer 1-5", by simp [give_feedback, h1f, h2]⟩
  · rintro ⟨msg, hmsg⟩
    by_cases h1 : (!idPresent rid || fb.getD .null == JVal.null) = true
    · simp [give_feedback, h1]
    · have h1f : (!idPresent rid || fb.getD .null == JVal.null) = false := by
        simpa using h1
      by_cases h2 : ((pyInt (fb.getD .null)).isNone
          || (pyInt (fb.getD .null)).getD 0 < 1 || (pyInt (fb.getD .null)).getD 0 > 5) = true
      · simp [give_feedback, h1f, h2]
      · have h2f : ((pyInt (fb.getD .null)).isNone
            || (pyInt (fb.getD .null)).getD 0 < 1
            || (pyInt (fb.getD .null)).getD 0 > 5) = false := by
          rw [Bool.eq_false_iff]
          exact h2
        exfalso
        simp only [give_feedback, h1f, h2f, Bool.false_eq_true, if_false] at hmsg
        simp at hmsg
  · rintro i v f r rfl rfl hi hparse hf1 hf5 hnd hr hrid
    have he := give_feedback_eq st i hi v f hparse hf1 hf5
    have hfind : findReg (st.registrations.map (fun x => if x.id == i
        then { x with feedback := some f } else x)) i = some { r with feedback := some f } := by
      rw [findReg_map_pres (fun x => if x.id == i then { x with feedback := some f } else x)
        (update_preserves_id i (fun x => { x with feedback := some f }) (fun x => rfl))
        st.registrations i]
      rw [findReg_eq_of_nodup hnd hr hrid]
      simp only [Option.map_some']
      rw [if_pos (by simp [hrid])]
    rw [he]
    constructor
    · dsimp only
      rw [hfind]
    · dsimp only

/-- Witness for C8 at the sample store: validating feedback 4 on
registration 1. -/
theorem C8_feedback_validation_witness :
    ((∃ msg, (give_feedback stW (some 1) (some (.num 4))).1 =
        .error (.validationErr msg)) ↔
      (idPresent (some 1) = false ∨ (some (JVal.num 4)).getD .null = .null ∨
        ¬ ∃ f, pyInt ((some (JVal.num 4)).getD .null) = some f ∧ 1 ≤ f ∧ f ≤ 5)) ∧
    (give_feedback stW (some 1) (some (.num 4))).1 = .ok (some { regW with feedback := some 4 }) ∧
    (give_feedback stW (some 1) (some (.num 4))).2.registrations =
      stW.registrations.map (fun x =>
        if x.id == 1 then { x with feedback := some (4 : Int) } else x) := by
  have h := C8_feedback_validation stW (some 1) (some (.num 4))
  have hc := h.2.2 1 (.num 4) 4 regW rfl rfl (by decide) (by decide) (by decide) (by decide)
    (by decide) (by decide) (by decide)
  exact ⟨h.1, hc.1, hc.2⟩

/-- The event-creation endpoint never touches the registrations table. -/
theorem create_event_regs (st : DBState) (t d dt ty c : Option String) :
    (create_event st t d dt ty c).2.registrations = st.registrations := by
  unfold create_event
  split
  · rfl
  · rfl

/-- The student-creation endpoint never touches the registrations
table. -/
theorem create_student_regs (st : DBState) (n e c : Option String) :
    (create_student st n e c).2.registrations = st.registrations := by
  unfold create_student
  split
  · rfl
  · split
    · rfl
    · rfl

/-- Every state reachable through the endpoints has only 0/1 attendance
values (column comment `-- 0/1` in `init_db`): inserts write 0 and
`mark_attendance` writes `int(bool(...))`. -/
theorem reach_attendance_bit {st : DBState} (h : Reach st) :
    ∀ r ∈ st.registrations, r.attendance = 0 ∨ r.attendance = 1 := by
  induction h with
  | init => intro r hr; cases hr
  | createEvent t d dt ty c _ ih =>
    intro r hr
    rw [create_event_regs] at hr
    exact ih r hr
  | createStudent n e c _ ih =>
    intro r hr
    rw [create_student_regs] at hr
    exact ih r hr
  | register e s now _ ih =>
    intro r hr
    unfold register_student at hr
    split at hr
    · exact ih r hr
    · split at hr
      · exact ih r hr
      · rcases List.mem_append.mp hr with h1 | h2
        · exact ih r h1
        · rw [List.mem_singleton] at h2
          subst h2
          exact Or.inl rfl
  | mark i p _ ih =>
    intro r hr
    simp only [mark_attendance] at hr
    split at hr
    · exact ih r hr
    · rcases List.mem_map.mp hr with ⟨x, hx, rfl⟩
      by_cases hxi : (x.id == i.getD 0) = true
      · rw [if_pos hxi]
        by_cases ht : truthy (p.getD (.num 1)) = true
        · rw [ht]
          exact Or.inr rfl
        · rw [Bool.eq_false_iff.mpr ht]
          exact Or.inl rfl
      · rw [if_neg hxi]
        exact ih x hx
  | feedback i f _ ih =>
    intro r hr
    simp only [give_feedback] at hr
    split at hr
    · exact ih r hr
    · split at hr
      · exact ih r hr
      · rcases List.mem_map.mp hr with ⟨x, hx, rfl⟩
        by_cases hxi : (x.id == i.getD 0) = true
        · rw [if_pos hxi]
          exact ih x hx
        · rw [if_neg hxi]
          exact ih x hx

/-- Claim C10: reachable stores only ever hold attendance 0 or 1;
`register` inserts rows with attendance 0; and `mark_attendance` coerces
the supplied `present` by truthiness — the non-empty string "false" sets
attendance to 1, and an omitted `present` defaults to 1. -/
theorem C10_attendance_bit (st : DBState) :
    (Reach st → ∀ r ∈ st.registrations, r.attendance = 0 ∨ r.attendance = 1) ∧
    (∀ e s now row, (register_student st e s now).1 = .ok row → row.attendance = 0) ∧
    (∀ (rid : Int) (r : Registration), rid ≠ 0 → r ∈ st.registrations → r.id = rid →
      { r with attendance := 1 } ∈
        (mark_attendance st (some rid) (some (.str "false"))).2.registrations ∧
      { r with attendance := 1 } ∈
        (mark_attendance st (some rid) none).2.registrations) := by
  refine ⟨fun h => reach_attendance_bit h, ?_, ?_⟩
  · intro e s now row hok
    unfold register_student at hok
    split at hok
    · cases hok
    · split at hok
      · cases hok
      · simp only [Except.ok.injEq] at hok
        rw [← hok]
  · intro rid r hrid hr hid
    have hfalse : truthy ((some (JVal.str "false")).getD (JVal.num 1)) = true := by decide
    have hnone : truthy ((none : Option JVal).getD (JVal.num 1)) = true := by decide
    constructor
    · rw [mark_attendance_eq st rid hrid (some (.str "false"))]
      dsimp only
      refine List.mem_map.mpr ⟨r, hr, ?_⟩
      rw [if_pos (by simp [hid]), hfalse]
      rfl
    · rw [mark_attendance_eq st rid hrid none]
      dsimp only
      refine List.mem_map.mpr ⟨r, hr, ?_⟩
      rw [if_pos (by simp [hid]), hnone]
      rfl

/-- A store reached by creating one event, one student, and one
registration through the endpoints; its single registration row is
`regW`. -/
def stR : DBState :=
  (register_student
    (create_student
      (create_event initState (some "Hack Day") (some "d") (some "2024-03-01") none none).2
      (some "Alice") (some "alice@x") (some "C-001")).2
    (some 1) (some 1) 0).2

theorem stR_reachable : Reach stR :=
  Reach.register (some 1) (some 1) 0
    (Reach.createStudent (some "Alice") (some "alice@x") (some "C-001")
      (Reach.createEvent (some "Hack Day") (some "d") (some "2024-03-01") none none
        Reach.init))

/-- Witness for C10 on the concrete reachable store `stR`. -/
theorem C10_attendance_bit_witness :
    (∀ r ∈ stR.registrations, r.attendance = 0 ∨ r.attendance = 1) ∧
    regW.attendance = 0 ∧
    { regW with attendance := 1 } ∈
      (mark_attendance stR (some 1) (some (.str "false"))).2.registrations ∧
    { regW with attendance := 1 } ∈
      (mark_attendance stR (some 1) none).2.registrations := by
  have h := C10_attendance_bit stR
  have hprev := C10_attendance_bit
    (create_student
      (create_event initState (some "Hack Day") (some "d") (some "2024-03-01") none none).2
      (some "Alice") (some "alice@x") (some "C-001")).2
  have hmark := h.2.2 1 regW (by decide) (by decide) (by decide)
  exact ⟨h.1 stR_reachable,
    hprev.2.1 (some 1) (some 1) 0 regW rfl,
    hmark.1, hmark.2⟩

/-- A store holding one student and no registrations, built through the
endpoints. -/
def stC2 : DBState :=
  (create_student initState (some "Alice") (some "alice@x") (some "C-001")).2

/-- Counterexample to claim C2 as stated: for a student with no
registrations, `SUM(r.attendance)` is SQL NULL, so `topStudents` reports
`eventsAttended` as null/absent — not 0 as the claim requires. -/
theorem C2_null_sum_counterexample :
    (report_top_students stC2 3).map (fun row => row.events_attended) = [none] ∧
    (report_top_students stC2 3).map (fun row => row.events_attended) ≠ [some 0] := by
  constructor
  · decide
  · decide

/-- Claim C2 as amended: `topStudents(limit)` (nonnegative limit) is the
first `limit` rows of a list holding, for each Student, the sum of
attendance across their registrations — null/absent when the student has
no registrations — and their registration count, sorted by
eventsAttended descending (null below every integer), then
registrationCount descending, then name ascending. -/
theorem C2_top_students_amended (st : DBState) (limit : Int) (hlim : 0 ≤ limit) :
    ∃ full : List TopStudentRow,
      report_top_students st limit = full.take limit.toNat ∧
      full.Perm (st.students.map (fun s =>
        { id := s.id, name := s.name, email := s.email, college_id := s.college_id,
          events_attended := if (st.registrations.filter
              (fun r => r.student_id == s.id)).isEmpty then none
            else some (((st.registrations.filter
              (fun r => r.student_id == s.id)).map (fun r => r.attendance)).sum),
          registrations := (st.registrations.filter
            (fun r => r.student_id == s.id)).length })) ∧
      List.Pairwise topOrd full := by
  refine ⟨List.insertionSort topOrd (st.students.map (topStudentRowOf st)), ?_, ?_, ?_⟩
  · unfold report_top_students sqlLimit
    rw [if_neg (by omega)]
  · refine (List.perm_insertionSort topOrd _).trans (List.Perm.of_eq ?_)
    exact List.map_congr_left (fun s _ => rfl)
  · exact List.sorted_insertionSort topOrd _

/-- Witness for the amended C2 at the sample store with limit 3. -/
theorem C2_top_students_amended_witness :
    ∃ full : List TopStudentRow,
      report_top_students stW 3 = full.take (3 : Int).toNat ∧
      full.Perm (stW.students.map (fun s =>
        { id := s.id, name := s.name, email := s.email, college_id := s.college_id,
          events_attended := if (stW.registrations.filter
              (fun r => r.student_id == s.id)).isEmpty then none
            else some (((stW.registrations.filter
              (fun r => r.student_id == s.id)).map (fun r => r.attendance)).sum),
          registrations := (stW.registrations.filter
            (fun r => r.student_id == s.id)).length })) ∧
      List.Pairwise topOrd full :=
  C2_top_students_amended stW 3 (by decide)

/-- Claim C5: `attendanceRates` yields one row per Event with `total`
the registration count, `attended` the count of its registrations with
attendance set, and the percentage rounded to 2 decimal places — 0 when
`total = 0`, with no division — sorted by percentage descending then
title ascending. -/
theorem C5_attendance_rates (st : DBState)
    (hb : ∀ r ∈ st.registrations, r.attendance = 0 ∨ r.attendance = 1) :
    ∃ full : List AttendanceRow,
      report_attendance st = full ∧
      full.Perm (st.events.map (fun e =>
        { id := e.id, title := e.title,
          total := (st.registrations.filter (fun r => r.event_id == e.id)).length,
          attended := (((st.registrations.filter (fun r => r.event_id == e.id)).filter
            (fun r => r.attendance == 1)).length : Int),
          attendance_pct := if (st.registrations.filter
              (fun r => r.event_id == e.id)).length = 0 then 0
            else round2 (((((st.registrations.filter (fun r => r.event_id == e.id)).filter
                (fun r => r.attendance == 1)).length : Int) : ℚ) * 100 /
              ((st.registrations.filter (fun r => r.event_id == e.id)).length : ℚ)) })) ∧
      List.Pairwise attOrd full ∧
      (∀ row ∈ report_attendance st, row.total = 0 → row.attendance_pct = 0) := by
  have hrow : ∀ e ∈ st.events, attendanceRowOf st e =
      { id := e.id, title := e.title,
        total := (st.registrations.filter (fun r => r.event_id == e.id)).length,
        attended := (((st.registrations.filter (fun r => r.event_id == e.id)).filter
          (fun r => r.attendance == 1)).length : Int),
        attendance_pct := if (st.registrations.filter
            (fun r => r.event_id == e.id)).length = 0 then 0
          else round2 (((((st.registrations.filter (fun r => r.event_id == e.id)).filter
              (fun r => r.attendance == 1)).length : Int) : ℚ) * 100 /
            ((st.registrations.filter (fun r => r.event_id == e.id)).length : ℚ)) } := by
    intro e _
    have hsum := sum_attendance_eq_count
      (st.registrations.filter (fun r => r.event_id == e.id))
      (fun r hr => hb r (List.mem_of_mem_filter hr))
    simp only [attendanceRowOf, eventRegs]
    rw [hsum]
  refine ⟨List.insertionSort attOrd (st.events.map (attendanceRowOf st)), rfl, ?_, ?_, ?_⟩
  · exact (List.perm_insertionSort attOrd _).trans
      (List.Perm.of_eq (List.map_congr_left hrow))
  · exact List.sorted_insertionSort attOrd _
  · intro row hrow0 htot
    rcases List.mem_map.mp (((List.perm_insertionSort attOrd _).mem_iff).mp hrow0)
      with ⟨e, _, rfl⟩
    have htot2 : (eventRegs st e.id).length = 0 := htot
    show (attendanceRowOf st e).attendance_pct = 0
    simp only [attendanceRowOf]
    rw [if_pos htot2]

/-- Witness for C5 at the sample store. -/
theorem C5_attendance_rates_witness :
    ∃ full : List AttendanceRow,
      report_attendance stW = full ∧
      full.Perm (stW.events.map (fun e =>
        { id := e.id, title := e.title,
          total := (stW.registrations.filter (fun r => r.event_id == e.id)).length,
          attended := (((stW.registrations.filter (fun r => r.event_id == e.id)).filter
            (fun r => r.attendance == 1)).length : Int),
          attendance_pct := if (stW.registrations.filter
              (fun r => r.event_id == e.id)).length = 0 then 0
            else round2 (((((stW.registrations.filter (fun r => r.event_id == e.id)).filter
                (fun r => r.attendance == 1)).length : Int) : ℚ) * 100 /
              ((stW.registrations.filter (fun r => r.event_id == e.id)).length : ℚ)) })) ∧
      List.Pairwise attOrd full ∧
      (∀ row ∈ report_attendance stW, row.total = 0 → row.attendance_pct = 0) :=
  C5_attendance_rates stW (by decide)

/-- Claim C6: `averageFeedback` reports exactly the events having at
least one registration with non-null feedback, each with the mean of
those values rounded to 2 decimal places, sorted by average descending
then title ascending; an event whose registrations all lack feedback is
excluded even if it has registrations. -/
theorem C6_average_feedback (st : DBState)
    (hid : (st.events.map (fun e => e.id)).Nodup) :
    ∃ full : List FeedbackRow,
      report_feedback st = full ∧
      full.Perm ((st.events.filter (fun e => !(fbVals st e.id).isEmpty)).map (fun e =>
        { id := e.id, title := e.title,
          avg_feedback := round2 (((fbVals st e.id).sum : ℚ) /
            ((fbVals st e.id).length : ℚ)) })) ∧
      List.Pairwise fbOrd full ∧
      (∀ e ∈ st.events, (fbVals st e.id).isEmpty = true →
        ∀ row ∈ report_feedback st, row.id ≠ e.id) := by
  refine ⟨_, rfl, ?_, ?_, ?_⟩
  · exact (List.perm_insertionSort fbOrd _).trans
      (List.Perm.of_eq (List.map_congr_left (fun e _ => rfl)))
  · exact List.sorted_insertionSort fbOrd _
  · intro e he hempty row hrow hcontra
    rcases List.mem_map.mp (((List.perm_insertionSort fbOrd _).mem_iff).mp hrow)
      with ⟨e2, he2, rfl⟩
    have he2mem := (List.mem_filter.mp he2).1
    have he2fb : (!(fbVals st e2.id).isEmpty) = true := (List.mem_filter.mp he2).2
    have heq : e2 = e :=
      List.inj_on_of_nodup_map hid he2mem he (by exact hcontra)
    rw [heq, hempty] at he2fb
    cases he2fb

/-- Witness for C6 at the sample store (whose only registration has null
feedback, so the report is empty). -/
theorem C6_average_feedback_witness :
    ∃ full : List FeedbackRow,
      report_feedback stW = full ∧
      full.Perm ((stW.events.filter (fun e => !(fbVals stW e.id).isEmpty)).map (fun e =>
        { id := e.id, title := e.title,
          avg_feedback := round2 (((fbVals stW e.id).sum : ℚ) /
            ((fbVals stW e.id).length : ℚ)) })) ∧
      List.Pairwise fbOrd full ∧
      (∀ e ∈ stW.events, (fbVals stW e.id).isEmpty = true →
        ∀ row ∈ report_feedback stW, row.id ≠ e.id) :=
  C6_average_feedback stW (by decide)

end Campus
